import Mathlib

/-!
Verification development for the spotify-profile-dump data-acquisition engine
(`src/spotify_dump/spotify_api.py`).  The Python functions are shallowly
embedded: JSON values become the inductive `Val`, Python exceptions become the
error side of `Except PyErr`, the network is abstracted as a pure function from
URL to response, retry sleeps are recorded in an observation trace, and the
`while` loops are given explicit fuel (fuel exhaustion models divergence and is
never treated as a Python exception).
-/

namespace SpotifyDump

/-- A parsed JSON value, as produced by `response.json()`.  Python `None` is
`null`; numbers are modelled as integers (all numeric fields used by the code
are integral). -/
inductive Val where
  | null : Val
  | str (s : String) : Val
  | num (n : Int) : Val
  | list (xs : List Val) : Val
  | dict (fields : List (String × Val)) : Val

/-- Python truthiness of a JSON value: `None`, `""`, `0`, `[]`, `{}` are falsy. -/
def Val.truthy : Val → Bool
  | .null => false
  | .str s => !s.isEmpty
  | .num n => n != 0
  | .list xs => !xs.isEmpty
  | .dict fields => !fields.isEmpty

/-- Python exceptions that the embedded code can raise.  `fuelExhausted` is a
modelling artifact standing for nontermination of a `while` loop; it is not a
Python exception and is never caught by `except` blocks. -/
inductive PyErr where
  | keyError (k : String) : PyErr
  | attributeError : PyErr
  | typeError : PyErr
  | indexError : PyErr
  | httpError (status : Nat) : PyErr
  | unauthorized : PyErr
  | forbidden : PyErr
  | fuelExhausted : PyErr
deriving DecidableEq

/-- `str(e)` for the exceptions above.  The texts for `keyError`,
`attributeError`, `typeError`, `indexError` and `httpError` approximate the
CPython messages; the claims only ever rely on the message being a string.
`unauthorized` and `forbidden` carry the exact messages passed to the
exception constructors in the source. -/
def PyErr.msg : PyErr → String
  | .keyError k => "'" ++ k ++ "'"
  | .attributeError => "object has no attribute"
  | .typeError => "type error"
  | .indexError => "list index out of range"
  | .httpError status => toString status ++ " Error"
  | .unauthorized => "Access token expired or invalid"
  | .forbidden => "User not registered in Spotify Developer Dashboard"
  | .fuelExhausted => "<nontermination>"

/-- First binding of key `k` in a JSON object's field list (Python dicts have
unique keys; serialized outputs are built left to right in insertion order). -/
def lookupKey (fields : List (String × Val)) (k : String) : Option Val :=
  (fields.find? (fun p => p.1 == k)).map (·.2)

/-- `d.get(k, default)` on an object's field list (total: the receiver is
already known to be a dict). -/
def pyGetD (fields : List (String × Val)) (k : String) (d : Val) : Val :=
  (lookupKey fields k).getD d

/-- `v.get(k, default)`: raises `AttributeError` when `v` is not a dict. -/
def Val.pyGet (v : Val) (k : String) (d : Val) : Except PyErr Val :=
  match v with
  | .dict fields => .ok (pyGetD fields k d)
  | _ => .error .attributeError

/-- `v[k]` subscription with a string key: `KeyError` when absent,
`TypeError` when `v` is not a dict. -/
def pySubscript (v : Val) (k : String) : Except PyErr Val :=
  match v with
  | .dict fields =>
    match lookupKey fields k with
    | some x => .ok x
    | none => .error (.keyError k)
  | _ => .error .typeError

/-- `v[i]` indexing on a list value.  Indexing of non-list values (e.g.
character indexing of strings) is not modelled and collapses to `TypeError`;
the code only indexes values it has just checked to be truthy `images`
lists. -/
def pyIndex (v : Val) (i : Nat) : Except PyErr Val :=
  match v with
  | .list xs =>
    match xs.get? i with
    | some x => .ok x
    | none => .error .indexError
  | _ => .error .typeError

/-- Iterating a value as a list.  Iteration of dicts/strings is not modelled
and collapses to `TypeError`; the code only iterates `items`/`artists`
payloads. -/
def asList (v : Val) : Except PyErr (List Val) :=
  match v with
  | .list xs => .ok xs
  | _ => .error .typeError

/-- `d | {k: x}` / `d[k] = x`: replace the first binding of `k`, or append it
when absent; `TypeError` when the receiver is not a dict. -/
def assocSet (fields : List (String × Val)) (k : String) (x : Val) : List (String × Val) :=
  match fields with
  | [] => [(k, x)]
  | (k', v') :: rest =>
    if k' == k then (k', x) :: rest else (k', v') :: assocSet rest k x

def Val.dictSet (v : Val) (k : String) (x : Val) : Except PyErr Val :=
  match v with
  | .dict fields => .ok (.dict (assocSet fields k x))
  | _ => .error .typeError

/-- `str(v)` as used in f-string URL interpolation.  Only the string case is
ever exercised by the claims; the other renderings abbreviate Python `str`. -/
def Val.pyStr : Val → String
  | .null => "None"
  | .str s => s
  | .num n => toString n
  | .list _ => "[...]"
  | .dict _ => "\x7b...\x7d"

/-- `f"{x:02d}"` for width 2: zero-pad the decimal rendering to two
characters (a sign character counts towards the width, as in Python). -/
def pad2 (n : Int) : String :=
  let s := toString n
  if s.length < 2 then "0" ++ s else s

/-- `format_duration` (spotify_api.py:100-111): milliseconds to `"H:MM:SS"` /
`"M:SS"`.  Python `//` and `%` are floor division and floor modulus, hence
`Int.fdiv` / `Int.fmod`. -/
def formatDuration : Option Int → Option String
  | none => none
  | some ms =>
    let totalSeconds := ms.fdiv 1000
    let hours := totalSeconds.fdiv 3600
    let minutes := (totalSeconds.fmod 3600).fdiv 60
    let seconds := totalSeconds.fmod 60
    if hours > 0 then
      some (toString hours ++ ":" ++ pad2 minutes ++ ":" ++ pad2 seconds)
    else
      some (toString minutes ++ ":" ++ pad2 seconds)

/-- `format_duration(track.get("duration_ms"))` applied to a JSON value:
`None` passes through, integers are formatted, anything else would make
Python's `//` raise `TypeError`. -/
def pyFormatDuration : Val → Except PyErr Val
  | .null => .ok .null
  | .num n =>
    match formatDuration (some n) with
    | some s => .ok (.str s)
    | none => .ok .null
  | _ => .error .typeError

/-- The comprehension `[{"name": artist.get("name")} for artist in ...]`
shared by `serialize_track` and `serialize_album`; errors propagate from the
first offending element. -/
def mapArtistNames : List Val → Except PyErr (List Val)
  | [] => .ok []
  | artist :: rest => do
    let n ← artist.pyGet "name" .null
    let tl ← mapArtistNames rest
    return (Val.dict [("name", n)] :: tl)

/-- `images[0].get("url") if images else None` (shared by the serializers). -/
def firstImageUrl (images : Val) : Except PyErr Val :=
  if images.truthy then do
    let first ← pyIndex images 0
    first.pyGet "url" .null
  else
    .ok .null

/-- `serialize_track` (spotify_api.py:114-130). -/
def serializeTrack (track : Val) : Except PyErr Val := do
  let album ← track.pyGet "album" (.dict [])
  let images ← album.pyGet "images" (.list [])
  let imageUrl ← firstImageUrl images
  let name ← track.pyGet "name" .null
  let albumName ← album.pyGet "name" .null
  let releaseDate ← album.pyGet "release_date" .null
  let artistsVal ← track.pyGet "artists" (.list [])
  let artistsList ← asList artistsVal
  let artists ← mapArtistNames artistsList
  let durVal ← track.pyGet "duration_ms" .null
  let duration ← pyFormatDuration durVal
  return .dict
    [ ("name", name),
      ("album", .dict
        [ ("name", albumName),
          ("release_date", releaseDate),
          ("image_url", imageUrl) ]),
      ("artists", .list artists),
      ("duration", duration) ]

/-- `serialize_saved_track` (spotify_api.py:133-136). -/
def serializeSavedTrack (item : Val) : Except PyErr Val := do
  let tr ← item.pyGet "track" (.dict [])
  let base ← serializeTrack tr
  let addedAt ← item.pyGet "added_at" .null
  base.dictSet "added_at" addedAt

/-- `serialize_playlist` (spotify_api.py:139-152). -/
def serializePlaylist (playlistInfo : Val) (tracks : List Val) : Except PyErr Val := do
  let images ← playlistInfo.pyGet "images" (.list [])
  let imageUrl ← firstImageUrl images
  let owner ← playlistInfo.pyGet "owner" (.dict [])
  let pid ← playlistInfo.pyGet "id" .null
  let name ← playlistInfo.pyGet "name" .null
  let description ← playlistInfo.pyGet "description" .null
  let displayName ← owner.pyGet "display_name" .null
  let ownerId ← owner.pyGet "id" .null
  let ownerName := if displayName.truthy then displayName else ownerId
  return .dict
    [ ("id", pid),
      ("name", name),
      ("description", description),
      ("owner", ownerName),
      ("image_url", imageUrl),
      ("tracks", .list tracks) ]

/-- `serialize_album` (spotify_api.py:181-195). -/
def serializeAlbum (item : Val) : Except PyErr Val := do
  let album ← item.pyGet "album" (.dict [])
  let images ← album.pyGet "images" (.list [])
  let imageUrl ← firstImageUrl images
  let name ← album.pyGet "name" .null
  let artistsVal ← album.pyGet "artists" (.list [])
  let artistsList ← asList artistsVal
  let artists ← mapArtistNames artistsList
  let releaseDate ← album.pyGet "release_date" .null
  let totalTracks ← album.pyGet "total_tracks" .null
  let addedAt ← item.pyGet "added_at" .null
  return .dict
    [ ("name", name),
      ("artists", .list artists),
      ("release_date", releaseDate),
      ("total_tracks", totalTracks),
      ("image_url", imageUrl),
      ("added_at", addedAt) ]

/-- `serialize_artist` (spotify_api.py:198-207). -/
def serializeArtist (item : Val) : Except PyErr Val := do
  let images ← item.pyGet "images" (.list [])
  let imageUrl ← firstImageUrl images
  let name ← item.pyGet "name" .null
  let genres ← item.pyGet "genres" (.list [])
  let followersDict ← item.pyGet "followers" (.dict [])
  let followers ← followersDict.pyGet "total" (.num 0)
  return .dict
    [ ("name", name),
      ("genres", genres),
      ("image_url", imageUrl),
      ("followers", followers) ]

/-- The list comprehension in `process_single_playlist` (spotify_api.py:164-168):
walk the raw page items in order, keep an item exactly when `item.get("track")`
is truthy, and serialize the kept items; exceptions propagate out of the
comprehension. -/
def buildTracks : List Val → Except PyErr (List Val)
  | [] => .ok []
  | item :: rest => do
    let tr ← item.pyGet "track" .null
    if tr.truthy then
      let s ← serializeSavedTrack item
      let tl ← buildTracks rest
      return (s :: tl)
    else
      buildTracks rest

/-- The per-playlist error annotation produced by the two `except` branches of
`process_single_playlist`: `requests.exceptions.HTTPError` (our `httpError`)
gets `"HTTP Error {status}"`, every other exception gets `str(e)`. -/
def errorLabel : PyErr → String
  | .httpError status => "HTTP Error " ++ toString status
  | e => e.msg

/-- `process_single_playlist` (spotify_api.py:161-178).  The track sub-fetch
`fetch_playlist_tracks_data(token, playlist_info["id"])` is abstracted as the
oracle `fetch` from the playlist id to the paginated raw items or an
exception.  Both `except` branches first interpolate `playlist_info['id']`
into a log f-string (which itself raises `KeyError` when the id is absent),
then return `serialize_playlist(playlist_info, []) | {"error": ...}`.
Nontermination of the sub-fetch (`fuelExhausted`) is not an exception and is
not caught. -/
def processSinglePlaylist (fetch : Val → Except PyErr (List Val))
    (playlistInfo : Val) : Except PyErr Val :=
  let tryBody : Except PyErr Val := do
    let pid ← pySubscript playlistInfo "id"
    let rawTracks ← fetch pid
    let tracks ← buildTracks rawTracks
    serializePlaylist playlistInfo tracks
  match tryBody with
  | .ok v => .ok v
  | .error .fuelExhausted => .error .fuelExhausted
  | .error e => do
    let _ ← pySubscript playlistInfo "id"
    let base ← serializePlaylist playlistInfo []
    base.dictSet "error" (.str (errorLabel e))

/-- The concurrent phase of `get_user_playlists` (spotify_api.py:226-228):
`list(executor.map(...))` over the playlist-metadata records.  `executor.map`
yields results in input order regardless of completion order, and `list(...)`
re-raises the first exception encountered in that order, so the phase is the
in-order effectful map below. -/
def fanOutPlaylists (fetch : Val → Except PyErr (List Val)) :
    List Val → Except PyErr (List Val)
  | [] => .ok []
  | playlist :: rest => do
    let r ← processSinglePlaylist fetch playlist
    let rs ← fanOutPlaylists fetch rest
    return (r :: rs)

/-! ## Retry policy (`retry_with_backoff`, spotify_api.py:24-61) -/

/-- The response seen by the retry wrapper: a status code and the parsed
`Retry-After` header (`none` when the header is absent or empty, i.e. falsy
under the walrus test `if retry_after := response.headers.get("Retry-After")`).
Delays are rationals; the float arithmetic performed by the code
(`min`, doubling, parsing small decimal numbers) is exact at these
magnitudes. -/
structure RetryResponse where
  status : Nat
  retryAfter : Option ℚ
deriving DecidableEq

/-- `[429, 500, 502, 503, 504]` (spotify_api.py:38). -/
def retryableStatuses : List Nat := [429, 500, 502, 503, 504]

/-- Python's binary `min` on the exact delay values (first argument on
ties). -/
def pymin (a b : ℚ) : ℚ := if a ≤ b then a else b

/-- One recorded `time.sleep` of the retry wrapper: the loop index at which it
happened, whether it came from the 429 `Retry-After` branch, and its
duration.  The trace is an observation added for specification; it carries no
data back into the computation. -/
structure SleepEvent where
  attempt : Nat
  rateLimit : Bool
  wait : ℚ
deriving DecidableEq

/-- The body of `retry_with_backoff`'s `for attempt in range(max_retries + 1)`
loop, with `fuel` = number of loop iterations still available after the
current one (so `attempt < max_retries` in the source is `fuel ≠ 0` here).
`f n` is the response of the call made in iteration `n`; every iteration makes
exactly one call, including the `continue` taken by the 429 `Retry-After`
branch.  Returns the response returned by the wrapper, the sleep trace, and
the number of calls made. -/
def retryAux (f : Nat → RetryResponse) (initialDelay maxDelay : ℚ) :
    Nat → Nat → RetryResponse × List SleepEvent × Nat
  | attempt, fuel =>
    let r := f attempt
    if r.status ∈ retryableStatuses then
      if r.status = 429 ∧ r.retryAfter.isSome then
        let w := pymin (r.retryAfter.getD 0) maxDelay
        match fuel with
        | 0 => (r, [⟨attempt, true, w⟩], attempt + 1)
        | fuel' + 1 =>
          let rest := retryAux f initialDelay maxDelay (attempt + 1) fuel'
          (rest.1, ⟨attempt, true, w⟩ :: rest.2.1, rest.2.2)
      else
        match fuel with
        | 0 => (r, [], attempt + 1)
        | fuel' + 1 =>
          let w := pymin (initialDelay * 2 ^ attempt) maxDelay
          let rest := retryAux f initialDelay maxDelay (attempt + 1) fuel'
          (rest.1, ⟨attempt, false, w⟩ :: rest.2.1, rest.2.2)
    else
      (r, [], attempt + 1)

/-- `retry_with_backoff(max_retries, initial_delay, max_delay)` applied to an
operation whose successive call results are `f 0, f 1, ...`: the wrapped call
runs the loop from iteration 0 with `max_retries` further iterations
available.  Source defaults: `max_retries = 5`, `initial_delay = 1.0`,
`max_delay = 60.0`. -/
def retryWithBackoff (f : Nat → RetryResponse) (maxRetries : Nat)
    (initialDelay maxDelay : ℚ) : RetryResponse × List SleepEvent × Nat :=
  retryAux f initialDelay maxDelay 0 maxRetries

/-! ## Paginator (`get_paginated_data`, spotify_api.py:74-97) -/

/-- The response of `safe_get` as seen by the paginators: a status code and
the parsed JSON object body (`response.json()` on the 2xx pages of this API is
always an object). -/
structure HttpResponse where
  status : Nat
  body : List (String × Val)

/-- The `while url:` loop of `get_paginated_data`.  The loop state `url` is a
JSON value because after the first iteration it is whatever `data.get("next")`
returned; the loop runs while it is truthy, and requesting a truthy non-string
URL is collapsed to `TypeError`.  `response.raise_for_status()` raises for
status ≥ 400 (after the dedicated 401/403 checks); `results.extend` of a
non-list `items` payload is collapsed to `TypeError`. -/
def getPaginatedLoop (get : String → HttpResponse) (fuel : Nat) (url : Val)
    (acc : List Val) : Except PyErr (List Val) :=
  if url.truthy then
    match url with
    | .str u =>
      match fuel with
      | 0 => .error .fuelExhausted
      | fuel' + 1 =>
        let r := get u
        if r.status = 401 then .error .unauthorized
        else if r.status = 403 then .error .forbidden
        else if 400 ≤ r.status then .error (.httpError r.status)
        else
          match pyGetD r.body "items" (.list []) with
          | .list items =>
            getPaginatedLoop get fuel' (pyGetD r.body "next" .null) (acc ++ items)
          | _ => .error .typeError
    | _ => .error .typeError
  else
    .ok acc

/-- `get_paginated_data(token, url)` with the network abstracted as `get`
(the token only feeds the request headers). -/
def getPaginatedData (get : String → HttpResponse) (fuel : Nat) (url : String) :
    Except PyErr (List Val) :=
  getPaginatedLoop get fuel (.str url) []

/-! ## Followed artists (`get_followed_artists`, spotify_api.py:245-277) -/

/-- The `while url:` loop of `get_followed_artists`, with the visited URLs
accumulated as an observation trace (one entry per request issued).  The body
is unwrapped through `data.get("artists", {})`, then `items` and
`cursors.after` are read from that nested object; a truthy `after` token is
interpolated into the fixed base URL, its absence ends the loop. -/
def getFollowedArtistsLoop (apiUrl : String) (get : String → HttpResponse)
    (fuel : Nat) (url : Option String) (results : List Val)
    (reqs : List String) : Except PyErr (List Val × List String) :=
  match url with
  | none => .ok (results, reqs)
  | some u =>
    match fuel with
    | 0 => .error .fuelExhausted
    | fuel' + 1 =>
      let r := get u
      if r.status = 401 then .error .unauthorized
      else if r.status = 403 then .error .forbidden
      else if 400 ≤ r.status then .error (.httpError r.status)
      else do
        let artistsData := pyGetD r.body "artists" (.dict [])
        let itemsVal ← artistsData.pyGet "items" (.list [])
        let items ← asList itemsVal
        let cursors ← artistsData.pyGet "cursors" (.dict [])
        let after ← cursors.pyGet "after" .null
        let nextUrl :=
          if after.truthy then
            some (apiUrl ++ "/v1/me/following?type=artist&limit=50&after=" ++ after.pyStr)
          else
            none
        getFollowedArtistsLoop apiUrl get fuel' nextUrl (results ++ items) (reqs ++ [u])

/-- The comprehension `[serialize_artist(item) for item in results]`
(spotify_api.py:274). -/
def mapSerializeArtist : List Val → Except PyErr (List Val)
  | [] => .ok []
  | item :: rest => do
    let s ← serializeArtist item
    let tl ← mapSerializeArtist rest
    return (s :: tl)

/-- `get_followed_artists(token)`: run the cursor loop from the fixed base URL
and serialize the accumulated raw artists in order.  Returns the serialized
list together with the request trace. -/
def getFollowedArtists (apiUrl : String) (get : String → HttpResponse)
    (fuel : Nat) : Except PyErr (List Val × List String) := do
  let (results, reqs) ← getFollowedArtistsLoop apiUrl get fuel
    (some (apiUrl ++ "/v1/me/following?type=artist&limit=50")) [] []
  let serialized ← mapSerializeArtist results
  return (serialized, reqs)

/-! ## Supporting lemmas -/

theorem lookupKey_nil (k : String) : lookupKey [] k = none := rfl

/-! ## C8: format_duration -/

/-- Modelled from the spec's normalization sentence: zero-pad a component to
two digits. -/
def specPad2 (n : Nat) : String := if n < 10 then "0" ++ toString n else toString n

/-- The rendering described by the spec, for comparison with the
implementation: an `"H:MM:SS"` string when at least one whole hour is present
and an `"M:SS"` string otherwise, with seconds (and minutes when hours are
shown) zero-padded to two digits while the leading unit is unpadded. -/
def specDurationRender (ms : Nat) : String :=
  let totalSeconds := ms / 1000
  let hours := totalSeconds / 3600
  let minutes := totalSeconds % 3600 / 60
  let seconds := totalSeconds % 60
  if 0 < hours then
    toString hours ++ ":" ++ specPad2 minutes ++ ":" ++ specPad2 seconds
  else
    toString minutes ++ ":" ++ specPad2 seconds

theorem toString_intCast (k : Nat) : toString ((k : Int)) = toString k := rfl

theorem pad2_agree : ∀ n : Nat, n < 60 → pad2 ((n : Nat) : Int) = specPad2 n := by decide

/-- C8: `format_duration(0) = "0:00"`, `format_duration(3_600_000) = "1:00:00"`,
`format_duration(None) = None`; and every non-negative millisecond input is
rendered in the shape the spec describes (`"H:MM:SS"` when at least one whole
hour is present, `"M:SS"` otherwise, trailing components zero-padded to two
digits, leading unit unpadded), with the padded components genuinely two
characters wide. -/
theorem C8_format_duration :
    formatDuration none = none ∧
    formatDuration (some 0) = some "0:00" ∧
    formatDuration (some 3600000) = some "1:00:00" ∧
    (∀ ms : Nat, formatDuration (some (ms : Int)) = some (specDurationRender ms)) ∧
    (∀ n : Nat, n < 60 → (specPad2 n).length = 2) := by
  refine ⟨rfl, rfl, rfl, ?_, by decide⟩
  intro ms
  have h1 : ((ms : Int)).fdiv 1000 = ((ms / 1000 : Nat) : Int) := (Int.ofNat_fdiv ms 1000).symm
  have h2 : (((ms / 1000 : Nat) : Int)).fdiv 3600 = ((ms / 1000 / 3600 : Nat) : Int) :=
    (Int.ofNat_fdiv _ 3600).symm
  have h3 : (((ms / 1000 : Nat) : Int)).fmod 3600 = ((ms / 1000 % 3600 : Nat) : Int) :=
    (Int.ofNat_fmod _ 3600).symm
  have h4 : (((ms / 1000 % 3600 : Nat) : Int)).fdiv 60 = ((ms / 1000 % 3600 / 60 : Nat) : Int) :=
    (Int.ofNat_fdiv _ 60).symm
  have h5 : (((ms / 1000 : Nat) : Int)).fmod 60 = ((ms / 1000 % 60 : Nat) : Int) :=
    (Int.ofNat_fmod _ 60).symm
  have hmlt : ms / 1000 % 3600 / 60 < 60 := by
    have := Nat.mod_lt (ms / 1000) (y := 3600) (by norm_num)
    omega
  have hslt : ms / 1000 % 60 < 60 := Nat.mod_lt _ (by norm_num)
  simp only [formatDuration, specDurationRender, h1, h2, h3, h4, h5, gt_iff_lt,
    Int.natCast_pos, toString_intCast, pad2_agree _ hmlt, pad2_agree _ hslt]
  split <;> rfl

/-- Witness for C8: instantiating the universally quantified parts at `ms =
3_725_000` (1 h 2 min 5 s) and `n = 5`. -/
theorem C8_format_duration_witness :
    formatDuration (some ((3725000 : Nat) : Int)) = some (specDurationRender 3725000) ∧
    (5 : Nat) < 60 ∧ (specPad2 5).length = 2 :=
  ⟨C8_format_duration.2.2.2.1 3725000, by decide, C8_format_duration.2.2.2.2 5 (by decide)⟩

/-! ## C9: serializers are total on records with missing optional fields -/

/-- C9: each normalizer, applied to a record lacking the optional fields, still
returns a record (no exception), with the absent `images`, `description` and
`owner` normalized to `None` and absent artist lists / genre lists normalized
to empty sequences (`followers` defaulting to 0). -/
theorem C9_serializers_missing_fields :
    (∀ fields, lookupKey fields "album" = none → lookupKey fields "artists" = none →
      lookupKey fields "duration_ms" = none →
      serializeTrack (.dict fields) = .ok (.dict
        [ ("name", pyGetD fields "name" .null),
          ("album", .dict [("name", .null), ("release_date", .null), ("image_url", .null)]),
          ("artists", .list []),
          ("duration", .null) ])) ∧
    (∀ fields tracks, lookupKey fields "images" = none →
      lookupKey fields "description" = none → lookupKey fields "owner" = none →
      serializePlaylist (.dict fields) tracks = .ok (.dict
        [ ("id", pyGetD fields "id" .null),
          ("name", pyGetD fields "name" .null),
          ("description", .null),
          ("owner", .null),
          ("image_url", .null),
          ("tracks", .list tracks) ])) ∧
    (∀ fields, lookupKey fields "album" = none →
      serializeAlbum (.dict fields) = .ok (.dict
        [ ("name", .null),
          ("artists", .list []),
          ("release_date", .null),
          ("total_tracks", .null),
          ("image_url", .null),
          ("added_at", pyGetD fields "added_at" .null) ])) ∧
    (∀ fields, lookupKey fields "images" = none → lookupKey fields "genres" = none →
      lookupKey fields "followers" = none →
      serializeArtist (.dict fields) = .ok (.dict
        [ ("name", pyGetD fields "name" .null),
          ("genres", .list []),
          ("image_url", .null),
          ("followers", .num 0) ])) := by
  refine ⟨?_, ?_, ?_, ?_⟩
  · intro fields halbum hartists hdur
    simp [serializeTrack, Val.pyGet, pyGetD, halbum, hartists, hdur, firstImageUrl, Val.truthy,
      asList, pyFormatDuration, mapArtistNames, lookupKey_nil, Except.instMonad, Except.bind,
      Except.pure]
  · intro fields tracks himages hdesc howner
    simp [serializePlaylist, Val.pyGet, pyGetD, himages, hdesc, howner, firstImageUrl, Val.truthy,
      lookupKey_nil, Except.instMonad, Except.bind, Except.pure]
  · intro fields halbum
    simp [serializeAlbum, Val.pyGet, pyGetD, halbum, firstImageUrl, Val.truthy,
      asList, mapArtistNames, lookupKey_nil, Except.instMonad, Except.bind, Except.pure]
  · intro fields himages hgenres hfoll
    simp [serializeArtist, Val.pyGet, pyGetD, himages, hgenres, hfoll, firstImageUrl, Val.truthy,
      lookupKey_nil, Except.instMonad, Except.bind, Except.pure]

/-- Witness for C9: concrete records carrying only non-optional fields. -/
theorem C9_serializers_missing_fields_witness :
    serializeTrack (.dict [("name", .str "Unknown Track")]) = .ok (.dict
      [ ("name", .str "Unknown Track"),
        ("album", .dict [("name", .null), ("release_date", .null), ("image_url", .null)]),
        ("artists", .list []),
        ("duration", .null) ]) ∧
    serializePlaylist (.dict [("id", .str "456"), ("name", .str "Empty Playlist")]) [] =
      .ok (.dict
        [ ("id", .str "456"),
          ("name", .str "Empty Playlist"),
          ("description", .null),
          ("owner", .null),
          ("image_url", .null),
          ("tracks", .list []) ]) ∧
    serializeAlbum (.dict [("added_at", .str "2024-01-01T00:00:00Z")]) = .ok (.dict
      [ ("name", .null),
        ("artists", .list []),
        ("release_date", .null),
        ("total_tracks", .null),
        ("image_url", .null),
        ("added_at", .str "2024-01-01T00:00:00Z") ]) ∧
    serializeArtist (.dict [("name", .str "Unknown Artist")]) = .ok (.dict
      [ ("name", .str "Unknown Artist"),
        ("genres", .list []),
        ("image_url", .null),
        ("followers", .num 0) ]) :=
  ⟨C9_serializers_missing_fields.1 _ rfl rfl rfl,
   C9_serializers_missing_fields.2.1 _ [] rfl rfl rfl,
   C9_serializers_missing_fields.2.2.1 _ rfl,
   C9_serializers_missing_fields.2.2.2 _ rfl rfl rfl⟩

/-! ## C10: falsy-track filtering in process_single_playlist -/

/-- `item.get("track")` is truthy (the keep-condition of the comprehension),
as a Boolean predicate on raw items. -/
def hasTruthyTrack (item : Val) : Bool :=
  match item with
  | .dict fields => (pyGetD fields "track" .null).truthy
  | _ => false

/-- In-order serialization of a list of raw saved-track items (the map part of
the comprehension, for comparison with `buildTracks`). -/
def mapSerializeSavedTrack : List Val → Except PyErr (List Val)
  | [] => .ok []
  | item :: rest => do
    let s ← serializeSavedTrack item
    let tl ← mapSerializeSavedTrack rest
    return (s :: tl)

theorem buildTracks_filter : ∀ (raw ts : List Val), buildTracks raw = .ok ts →
    mapSerializeSavedTrack (raw.filter hasTruthyTrack) = .ok ts ∧
    ts.length = (raw.filter hasTruthyTrack).length ∧ ts.length ≤ raw.length := by
  intro raw
  induction raw with
  | nil =>
    intro ts h
    simp only [buildTracks] at h
    cases h
    simp [mapSerializeSavedTrack]
  | cons item rest ih =>
    intro ts h
    simp only [buildTracks, Except.instMonad, Except.bind, Except.pure] at h
    rcases hg : item.pyGet "track" .null with _ | tr
    · rw [hg] at h; cases h
    · rw [hg] at h
      have hitem : ∃ fields, item = .dict fields ∧ tr = pyGetD fields "track" .null := by
        cases item <;> simp [Val.pyGet] at hg
        exact ⟨_, rfl, hg.symm⟩
      obtain ⟨fields, rfl, rfl⟩ := hitem
      by_cases htr : (pyGetD fields "track" .null).truthy
      · simp only [htr, if_true] at h
        rcases hs : serializeSavedTrack (.dict fields) with _ | s
        · rw [hs] at h; cases h
        · rw [hs] at h
          rcases hb : buildTracks rest with _ | tl
          · rw [hb] at h; cases h
          · rw [hb] at h
            cases h
            obtain ⟨h1, h2, h3⟩ := ih tl hb
            refine ⟨?_, ?_, ?_⟩
            · simp [List.filter, hasTruthyTrack, htr, mapSerializeSavedTrack, hs, h1,
                Except.instMonad, Except.bind, Except.pure]
            · simp [List.filter, hasTruthyTrack, htr, h2]
            · simpa using Nat.succ_le_succ h3
      · simp only [htr, if_false] at h
        obtain ⟨h1, h2, h3⟩ := ih ts h
        refine ⟨?_, ?_, ?_⟩
        · simpa [List.filter, hasTruthyTrack, htr] using h1
        · simpa [List.filter, hasTruthyTrack, htr] using h2
        · exact Nat.le_succ_of_le h3

/-- C10: the comprehension in `process_single_playlist` silently drops every
raw item whose `track` field is absent, null or otherwise falsy: whenever it
succeeds, its result is exactly the in-order serialization of the items with a
truthy `track` field, and the resulting count can be smaller than (never
exceeds) the number of items the remote service returned; and on a successful
sub-fetch the playlist record is built from exactly these filtered tracks. -/
theorem C10_track_filtering :
    (∀ raw ts, buildTracks raw = .ok ts →
      mapSerializeSavedTrack (raw.filter hasTruthyTrack) = .ok ts ∧
      ts.length = (raw.filter hasTruthyTrack).length ∧
      ts.length ≤ raw.length) ∧
    (∀ (fetch : Val → Except PyErr (List Val)) info pid raw ts v,
      pySubscript info "id" = .ok pid → fetch pid = .ok raw →
      buildTracks raw = .ok ts → serializePlaylist info ts = .ok v →
      processSinglePlaylist fetch info = .ok v) := by
  refine ⟨buildTracks_filter, ?_⟩
  intro fetch info pid raw ts v hpid hfetch hbuild hser
  simp [processSinglePlaylist, hpid, hfetch, hbuild, hser,
    Except.instMonad, Except.bind, Except.pure]

/-- A concrete raw page for the C10 witness: items 2 (null track) and 3
(missing track) are dropped, items 1 and 4 are kept. -/
def c10rawW : List Val :=
  [ .dict [("track", .dict [("name", .str "T1")]), ("added_at", .str "d1")],
    .dict [("track", .null)],
    .dict [("added_at", .str "d3")],
    .dict [("track", .dict [("name", .str "T2")]), ("added_at", .str "d2")] ]

def c10trackW (nm d : String) : Val := .dict
  [ ("name", .str nm),
    ("album", .dict [("name", .null), ("release_date", .null), ("image_url", .null)]),
    ("artists", .list []),
    ("duration", .null),
    ("added_at", .str d) ]

def c10infoW : Val := .dict [("id", .str "p"), ("name", .str "N")]

def c10recW : Val := .dict
  [ ("id", .str "p"), ("name", .str "N"), ("description", .null), ("owner", .null),
    ("image_url", .null), ("tracks", .list [c10trackW "T1" "d1", c10trackW "T2" "d2"]) ]

/-- Witness for C10: four raw items of which two carry truthy tracks; the
playlist record keeps exactly those two serializations, in order. -/
theorem C10_track_filtering_witness :
    (mapSerializeSavedTrack (c10rawW.filter hasTruthyTrack) =
        .ok [c10trackW "T1" "d1", c10trackW "T2" "d2"] ∧
      ([c10trackW "T1" "d1", c10trackW "T2" "d2"] : List Val).length =
        (c10rawW.filter hasTruthyTrack).length ∧
      ([c10trackW "T1" "d1", c10trackW "T2" "d2"] : List Val).length ≤ c10rawW.length) ∧
    processSinglePlaylist (fun _ => .ok c10rawW) c10infoW = .ok c10recW :=
  ⟨C10_track_filtering.1 c10rawW [c10trackW "T1" "d1", c10trackW "T2" "d2"] rfl,
   C10_track_filtering.2 (fun _ => .ok c10rawW) c10infoW (.str "p") c10rawW
     [c10trackW "T1" "d1", c10trackW "T2" "d2"] c10recW rfl rfl rfl rfl⟩

/-! ## C1: fan-out coordinator ordering and failure isolation -/

theorem serializePlaylist_ok_shape (info : Val) (ts : List Val) (v : Val)
    (h : serializePlaylist info ts = .ok v) :
    ∃ a b c d e, v = .dict
      [("id", a), ("name", b), ("description", c), ("owner", d), ("image_url", e),
       ("tracks", .list ts)] := by
  simp only [serializePlaylist, Except.instMonad, Except.bind, Except.pure] at h
  repeat' split at h
  all_goals try (cases h)
  all_goals exact ⟨_, _, _, _, _, rfl⟩

theorem fanOut_pointwise : ∀ (fetch : Val → Except PyErr (List Val))
    (playlists out : List Val), fanOutPlaylists fetch playlists = .ok out →
    out.length = playlists.length ∧
    ∀ i (hi : i < playlists.length) (ho : i < out.length),
      processSinglePlaylist fetch (playlists.get ⟨i, hi⟩) = .ok (out.get ⟨i, ho⟩) := by
  intro fetch playlists
  induction playlists with
  | nil =>
    intro out h
    simp only [fanOutPlaylists] at h
    cases h
    exact ⟨rfl, fun i hi => absurd hi (by simp)⟩
  | cons p rest ih =>
    intro out h
    simp only [fanOutPlaylists, Except.instMonad, Except.bind, Except.pure] at h
    rcases hp : processSinglePlaylist fetch p with _ | r
    · rw [hp] at h; cases h
    · rw [hp] at h
      rcases hr : fanOutPlaylists fetch rest with _ | rs
      · rw [hr] at h; cases h
      · rw [hr] at h
        cases h
        obtain ⟨hlen, hidx⟩ := ih rs hr
        refine ⟨by simp [hlen], ?_⟩
        intro i hi ho
        cases i with
        | zero => simpa using hp
        | succ j =>
          have hj : j < rest.length := by simpa using hi
          have hjo : j < rs.length := by simpa using ho
          simpa using hidx j hj hjo

theorem processSingle_error (fetch : Val → Except PyErr (List Val))
    (info pid : Val) (e : PyErr) (base : Val)
    (hpid : pySubscript info "id" = .ok pid)
    (hfetch : fetch pid = .error e)
    (hne : e ≠ .fuelExhausted)
    (hbase : serializePlaylist info [] = .ok base) :
    ∃ fs, processSinglePlaylist fetch info = .ok (.dict fs) ∧
      lookupKey fs "tracks" = some (.list []) ∧
      lookupKey fs "error" = some (.str (errorLabel e)) := by
  obtain ⟨a, b, c, d, i, rfl⟩ := serializePlaylist_ok_shape info [] base hbase
  refine ⟨[("id", a), ("name", b), ("description", c), ("owner", d), ("image_url", i),
    ("tracks", .list []), ("error", .str (errorLabel e))], ?_, rfl, rfl⟩
  cases e with
  | fuelExhausted => exact absurd rfl hne
  | _ =>
    simp [processSinglePlaylist, hpid, hfetch, hbase, Val.dictSet, assocSet, errorLabel,
      Except.instMonad, Except.bind, Except.pure]

/-- C1: the fan-out phase of `get_user_playlists` returns exactly one record
per input playlist, in input order (record `i` is `process_single_playlist` of
input playlist `i`); and when a playlist's track sub-fetch raises any caught
exception, that playlist still yields a record whose `tracks` field is the
empty list and whose `error` field is a (non-null) string, the other
playlists' records being untouched since each record depends only on its own
playlist. -/
theorem C1_fanout_order_and_isolation :
    (∀ (fetch : Val → Except PyErr (List Val)) (playlists out : List Val),
      fanOutPlaylists fetch playlists = .ok out →
      out.length = playlists.length ∧
      ∀ i (hi : i < playlists.length) (ho : i < out.length),
        processSinglePlaylist fetch (playlists.get ⟨i, hi⟩) = .ok (out.get ⟨i, ho⟩)) ∧
    (∀ (fetch : Val → Except PyErr (List Val)) (info pid : Val) (e : PyErr) (base : Val),
      pySubscript info "id" = .ok pid → fetch pid = .error e → e ≠ .fuelExhausted →
      serializePlaylist info [] = .ok base →
      ∃ fs, processSinglePlaylist fetch info = .ok (.dict fs) ∧
        lookupKey fs "tracks" = some (.list []) ∧
        lookupKey fs "error" = some (.str (errorLabel e))) :=
  ⟨fanOut_pointwise, processSingle_error⟩

def fanInfoW (i : Nat) : Val :=
  .dict [("id", .str (toString i)), ("name", .str ("P" ++ toString i))]

def fanRawW : List Val :=
  [ .dict [("track", .dict [("name", .str "T")]), ("added_at", .str "a")],
    .dict [("track", .null)] ]

/-- The C1 witness fetch oracle: playlist `"3"`'s sub-fetch always fails. -/
def fanFetchW : Val → Except PyErr (List Val)
  | .str "3" => .error (.httpError 500)
  | _ => .ok fanRawW

def fanTrackW : Val := .dict
  [ ("name", .str "T"),
    ("album", .dict [("name", .null), ("release_date", .null), ("image_url", .null)]),
    ("artists", .list []),
    ("duration", .null),
    ("added_at", .str "a") ]

def fanRecW (i : Nat) : Val := .dict
  [ ("id", .str (toString i)), ("name", .str ("P" ++ toString i)), ("description", .null),
    ("owner", .null), ("image_url", .null), ("tracks", .list [fanTrackW]) ]

def fanErrRecW : Val := .dict
  [ ("id", .str "3"), ("name", .str "P3"), ("description", .null), ("owner", .null),
    ("image_url", .null), ("tracks", .list []), ("error", .str "HTTP Error 500") ]

def fanPlaylistsW : List Val :=
  [fanInfoW 1, fanInfoW 2, fanInfoW 3, fanInfoW 4, fanInfoW 5]

def fanOutW : List Val := [fanRecW 1, fanRecW 2, fanErrRecW, fanRecW 4, fanRecW 5]

def fanBaseW : Val := .dict
  [ ("id", .str "3"), ("name", .str "P3"), ("description", .null), ("owner", .null),
    ("image_url", .null), ("tracks", .list []) ]

/-- Witness for C1: five playlists of which only #3's sub-fetch fails; the
fan-out returns five records in input order, #3 with empty tracks and an
error string. -/
theorem C1_fanout_order_and_isolation_witness :
    (fanOutW.length = fanPlaylistsW.length ∧
      processSinglePlaylist fanFetchW (fanPlaylistsW.get ⟨2, by decide⟩) =
        .ok (fanOutW.get ⟨2, by decide⟩)) ∧
    (∃ fs, processSinglePlaylist fanFetchW (fanInfoW 3) = .ok (.dict fs) ∧
      lookupKey fs "tracks" = some (.list []) ∧
      lookupKey fs "error" = some (.str (errorLabel (.httpError 500)))) :=
  ⟨⟨(C1_fanout_order_and_isolation.1 fanFetchW fanPlaylistsW fanOutW rfl).1,
    (C1_fanout_order_and_isolation.1 fanFetchW fanPlaylistsW fanOutW rfl).2 2
      (by decide) (by decide)⟩,
   C1_fanout_order_and_isolation.2 fanFetchW (fanInfoW 3) (.str "3") (.httpError 500)
     fanBaseW rfl rfl (by decide) rfl⟩

/-! ## Retry policy lemmas (C2, C5, C6) -/

theorem pymin_le_right (a b : ℚ) : pymin a b ≤ b := by
  unfold pymin
  split
  · assumption
  · exact le_refl b

theorem pymin_mono_left {a b : ℚ} (c : ℚ) (h : a ≤ b) : pymin a c ≤ pymin b c := by
  unfold pymin
  split <;> split <;> first | assumption | linarith

theorem retryAux_pass (f : Nat → RetryResponse) (iD mD : ℚ) (a fuel : Nat)
    (h : (f a).status ∉ retryableStatuses) :
    retryAux f iD mD a fuel = (f a, [], a + 1) := by
  cases fuel <;> simp [retryAux, h]

theorem retryAux_rl_zero (f : Nat → RetryResponse) (iD mD : ℚ) (a : Nat)
    (h429 : (f a).status = 429) (hdr : (f a).retryAfter.isSome) :
    retryAux f iD mD a 0 =
      (f a, [⟨a, true, pymin ((f a).retryAfter.getD 0) mD⟩], a + 1) := by
  simp [retryAux, h429, hdr, retryableStatuses]

theorem retryAux_rl_succ (f : Nat → RetryResponse) (iD mD : ℚ) (a fuel : Nat)
    (h429 : (f a).status = 429) (hdr : (f a).retryAfter.isSome) :
    retryAux f iD mD a (fuel + 1) =
      ((retryAux f iD mD (a + 1) fuel).1,
       ⟨a, true, pymin ((f a).retryAfter.getD 0) mD⟩ :: (retryAux f iD mD (a + 1) fuel).2.1,
       (retryAux f iD mD (a + 1) fuel).2.2) := by
  simp [retryAux, h429, hdr, retryableStatuses]

theorem retryAux_exp_zero (f : Nat → RetryResponse) (iD mD : ℚ) (a : Nat)
    (h : (f a).status ∈ retryableStatuses)
    (hn : ¬((f a).status = 429 ∧ (f a).retryAfter.isSome)) :
    retryAux f iD mD a 0 = (f a, [], a + 1) := by
  simp [retryAux, h, hn]

theorem retryAux_exp_succ (f : Nat → RetryResponse) (iD mD : ℚ) (a fuel : Nat)
    (h : (f a).status ∈ retryableStatuses)
    (hn : ¬((f a).status = 429 ∧ (f a).retryAfter.isSome)) :
    retryAux f iD mD a (fuel + 1) =
      ((retryAux f iD mD (a + 1) fuel).1,
       ⟨a, false, pymin (iD * 2 ^ a) mD⟩ :: (retryAux f iD mD (a + 1) fuel).2.1,
       (retryAux f iD mD (a + 1) fuel).2.2) := by
  simp [retryAux, h, hn]

/-- The loop always returns the response of some call `k` among its
iterations, and the number of calls made is `k + 1`. -/
theorem retryAux_result (f : Nat → RetryResponse) (iD mD : ℚ) : ∀ (fuel a : Nat),
    ∃ k, a ≤ k ∧ k ≤ a + fuel ∧ (retryAux f iD mD a fuel).1 = f k ∧
      (retryAux f iD mD a fuel).2.2 = k + 1 := by
  intro fuel
  induction fuel with
  | zero =>
    intro a
    by_cases h : (f a).status ∈ retryableStatuses
    · by_cases h2 : (f a).status = 429 ∧ (f a).retryAfter.isSome
      · rw [retryAux_rl_zero f iD mD a h2.1 h2.2]
        exact ⟨a, le_refl a, by omega, rfl, rfl⟩
      · rw [retryAux_exp_zero f iD mD a h h2]
        exact ⟨a, le_refl a, by omega, rfl, rfl⟩
    · rw [retryAux_pass f iD mD a 0 h]
      exact ⟨a, le_refl a, by omega, rfl, rfl⟩
  | succ fu ih =>
    intro a
    by_cases h : (f a).status ∈ retryableStatuses
    · by_cases h2 : (f a).status = 429 ∧ (f a).retryAfter.isSome
      · rw [retryAux_rl_succ f iD mD a fu h2.1 h2.2]
        obtain ⟨k, hk1, hk2, hk3, hk4⟩ := ih (a + 1)
        exact ⟨k, by omega, by omega, hk3, hk4⟩
      · rw [retryAux_exp_succ f iD mD a fu h h2]
        obtain ⟨k, hk1, hk2, hk3, hk4⟩ := ih (a + 1)
        exact ⟨k, by omega, by omega, hk3, hk4⟩
    · rw [retryAux_pass f iD mD a (fu + 1) h]
      exact ⟨a, le_refl a, by omega, rfl, rfl⟩

/-- Per-event facts about the sleep trace: every backoff sleep at loop index
`i` waits `pymin (iD * 2 ^ i) mD`, every rate-limit sleep waits
`pymin retry_after mD`, loop indices strictly increase along the trace, and at
most `fuel` backoff sleeps happen. -/
theorem retryAux_trace (f : Nat → RetryResponse) (iD mD : ℚ) : ∀ (fuel a : Nat),
    (∀ e ∈ (retryAux f iD mD a fuel).2.1,
      a ≤ e.attempt ∧
      (e.rateLimit = false → e.wait = pymin (iD * 2 ^ e.attempt) mD) ∧
      (e.rateLimit = true → ∃ ra, (f e.attempt).retryAfter = some ra ∧ e.wait = pymin ra mD)) ∧
    List.Pairwise (fun x y => x.attempt < y.attempt) (retryAux f iD mD a fuel).2.1 ∧
    ((retryAux f iD mD a fuel).2.1.filter (fun e => !e.rateLimit)).length ≤ fuel := by
  intro fuel
  induction fuel with
  | zero =>
    intro a
    by_cases h : (f a).status ∈ retryableStatuses
    · by_cases h2 : (f a).status = 429 ∧ (f a).retryAfter.isSome
      · rw [retryAux_rl_zero f iD mD a h2.1 h2.2]
        refine ⟨?_, by simp, by simp⟩
        intro e he
        simp only [List.mem_singleton] at he
        subst he
        refine ⟨le_refl a, by simp, ?_⟩
        intro _
        obtain ⟨ra, hra⟩ := Option.isSome_iff_exists.mp h2.2
        exact ⟨ra, hra, by simp [hra]⟩
      · rw [retryAux_exp_zero f iD mD a h h2]; simp
    · rw [retryAux_pass f iD mD a 0 h]; simp
  | succ fu ih =>
    intro a
    by_cases h : (f a).status ∈ retryableStatuses
    · by_cases h2 : (f a).status = 429 ∧ (f a).retryAfter.isSome
      · rw [retryAux_rl_succ f iD mD a fu h2.1 h2.2]
        obtain ⟨ihm, ihp, ihl⟩ := ih (a + 1)
        refine ⟨?_, ?_, ?_⟩
        · intro e he
          simp only [List.mem_cons] at he
          rcases he with rfl | he
          · refine ⟨le_refl a, by simp, ?_⟩
            intro _
            obtain ⟨ra, hra⟩ := Option.isSome_iff_exists.mp h2.2
            exact ⟨ra, hra, by simp [hra]⟩
          · obtain ⟨h1, h2', h3⟩ := ihm e he
            exact ⟨by omega, h2', h3⟩
        · refine List.Pairwise.cons ?_ ihp
          intro y hy
          have := (ihm y hy).1
          simpa using by omega
        · simpa using Nat.le_succ_of_le ihl
      · rw [retryAux_exp_succ f iD mD a fu h h2]
        obtain ⟨ihm, ihp, ihl⟩ := ih (a + 1)
        refine ⟨?_, ?_, ?_⟩
        · intro e he
          simp only [List.mem_cons] at he
          rcases he with rfl | he
          · exact ⟨le_refl a, fun _ => rfl, by simp⟩
          · obtain ⟨h1, h2', h3⟩ := ihm e he
            exact ⟨by omega, h2', h3⟩
        · refine List.Pairwise.cons ?_ ihp
          intro y hy
          have := (ihm y hy).1
          simpa using by omega
        · simpa using Nat.succ_le_succ ihl
    · rw [retryAux_pass f iD mD a (fu + 1) h]; simp

/-- A run whose responses are all 5xx server errors exhausts the budget:
`max_retries + 1` calls, the last response returned. -/
theorem retryAux_allServerErr (f : Nat → RetryResponse) (iD mD : ℚ) : ∀ (fuel a : Nat),
    (∀ n, a ≤ n → n ≤ a + fuel → (f n).status ∈ [500, 502, 503, 504]) →
    (retryAux f iD mD a fuel).1 = f (a + fuel) ∧
    (retryAux f iD mD a fuel).2.2 = a + fuel + 1 := by
  intro fuel
  induction fuel with
  | zero =>
    intro a hall
    have hs := hall a (le_refl a) (by omega)
    have hmem : (f a).status ∈ retryableStatuses := by
      simp only [List.mem_cons, List.mem_nil_iff, or_false] at hs
      rcases hs with h | h | h | h <;> simp [retryableStatuses, h]
    have hne : ¬((f a).status = 429 ∧ (f a).retryAfter.isSome) := by
      simp only [List.mem_cons, List.mem_nil_iff, or_false] at hs
      rcases hs with h | h | h | h <;> simp [h]
    rw [retryAux_exp_zero f iD mD a hmem hne]
    exact ⟨rfl, rfl⟩
  | succ fu ih =>
    intro a hall
    have hs := hall a (le_refl a) (by omega)
    have hmem : (f a).status ∈ retryableStatuses := by
      simp only [List.mem_cons, List.mem_nil_iff, or_false] at hs
      rcases hs with h | h | h | h <;> simp [retryableStatuses, h]
    have hne : ¬((f a).status = 429 ∧ (f a).retryAfter.isSome) := by
      simp only [List.mem_cons, List.mem_nil_iff, or_false] at hs
      rcases hs with h | h | h | h <;> simp [h]
    rw [retryAux_exp_succ f iD mD a fu hmem hne]
    obtain ⟨h1, h2⟩ := ih (a + 1) (fun n hn1 hn2 => hall n (by omega) (by omega))
    refine ⟨?_, ?_⟩
    · simpa [Nat.add_comm, Nat.add_assoc, Nat.add_left_comm] using h1
    · simpa [Nat.add_comm, Nat.add_assoc, Nat.add_left_comm] using h2

/-- A run whose responses are all 429-with-`Retry-After` equally exhausts the
budget: the rate-limit `continue` advances the same loop counter. -/
theorem retryAux_allRL (f : Nat → RetryResponse) (iD mD : ℚ)
    (hall : ∀ n, (f n).status = 429 ∧ (f n).retryAfter.isSome) : ∀ (fuel a : Nat),
    (retryAux f iD mD a fuel).1 = f (a + fuel) ∧
    (retryAux f iD mD a fuel).2.2 = a + fuel + 1 := by
  intro fuel
  induction fuel with
  | zero =>
    intro a
    rw [retryAux_rl_zero f iD mD a (hall a).1 (hall a).2]
    exact ⟨rfl, rfl⟩
  | succ fu ih =>
    intro a
    rw [retryAux_rl_succ f iD mD a fu (hall a).1 (hall a).2]
    obtain ⟨h1, h2⟩ := ih (a + 1)
    refine ⟨?_, ?_⟩
    · simpa [Nat.add_comm, Nat.add_assoc, Nat.add_left_comm] using h1
    · simpa [Nat.add_comm, Nat.add_assoc, Nat.add_left_comm] using h2

/-! ## C5: exponential backoff formula, monotonicity, bounds -/

/-- C5: under the source defaults (`max_retries = 5`, `initial_delay = 1`,
`max_delay = 60`), every backoff sleep at loop index `n` waits exactly
`min(initial_delay * 2 ^ n, max_delay)`; every sleep (rate-limit ones
included) is bounded by `max_delay`; the backoff waits are non-decreasing in
attempt order; and at most `max_retries` backoff retries and `max_retries + 1`
calls happen in any run. -/
theorem C5_backoff_formula (f : Nat → RetryResponse) :
    (∀ e ∈ (retryWithBackoff f 5 1 60).2.1, e.rateLimit = false →
      e.wait = pymin (1 * 2 ^ e.attempt) 60) ∧
    (∀ e ∈ (retryWithBackoff f 5 1 60).2.1, e.wait ≤ 60) ∧
    List.Pairwise (fun x y => x.wait ≤ y.wait)
      (((retryWithBackoff f 5 1 60).2.1).filter (fun e => !e.rateLimit)) ∧
    (((retryWithBackoff f 5 1 60).2.1).filter (fun e => !e.rateLimit)).length ≤ 5 ∧
    (retryWithBackoff f 5 1 60).2.2 ≤ 5 + 1 := by
  obtain ⟨hm, hp, hl⟩ := retryAux_trace f 1 60 5 0
  obtain ⟨k, hk1, hk2, hk3, hk4⟩ := retryAux_result f 1 60 5 0
  simp only [retryWithBackoff]
  refine ⟨fun e he hrl => (hm e he).2.1 hrl, ?_, ?_, hl, by omega⟩
  · intro e he
    obtain ⟨-, hf, ht⟩ := hm e he
    cases hrl : e.rateLimit
    · rw [hf hrl]; exact pymin_le_right _ _
    · obtain ⟨ra, -, hw⟩ := ht hrl
      rw [hw]; exact pymin_le_right _ _
  · refine (hp.filter (fun e => !e.rateLimit)).imp_of_mem ?_
    intro x y hx hy hxy
    have hxm := List.mem_of_mem_filter hx
    have hym := List.mem_of_mem_filter hy
    have hxrl : x.rateLimit = false := by simpa using List.of_mem_filter hx
    have hyrl : y.rateLimit = false := by simpa using List.of_mem_filter hy
    rw [(hm x hxm).2.1 hxrl, (hm y hym).2.1 hyrl]
    refine pymin_mono_left 60 ?_
    rw [one_mul, one_mul]
    exact pow_le_pow_right₀ (by norm_num) (le_of_lt hxy)

/-- Witness for C5: the all-500 run under default parameters; the sleep at
loop index 1 waits `min(1 * 2 ^ 1, 60)`. -/
theorem C5_backoff_formula_witness :
    ((⟨1, false, (2 : ℚ)⟩ : SleepEvent) ∈
      (retryWithBackoff (fun _ => ⟨500, none⟩) 5 1 60).2.1) ∧
    (⟨1, false, (2 : ℚ)⟩ : SleepEvent).wait = pymin (1 * 2 ^ (1 : Nat)) 60 ∧
    (⟨1, false, (2 : ℚ)⟩ : SleepEvent).wait ≤ 60 ∧
    (((retryWithBackoff (fun _ => ⟨500, none⟩) 5 1 60).2.1).filter
      (fun e => !e.rateLimit)).length ≤ 5 ∧
    (retryWithBackoff (fun _ => ⟨500, none⟩) 5 1 60).2.2 ≤ 5 + 1 := by
  have h := C5_backoff_formula (fun _ => ⟨500, none⟩)
  have hmem : (⟨1, false, (2 : ℚ)⟩ : SleepEvent) ∈
      (retryWithBackoff (fun _ => ⟨500, none⟩) 5 1 60).2.1 := by
    norm_num [retryWithBackoff, retryAux, retryableStatuses, pymin]
  exact ⟨hmem, h.1 _ hmem rfl, h.2.1 _ hmem, h.2.2.2.1, h.2.2.2.2⟩

/-! ## C6: which statuses are retried, pass-through, never raises -/

/-- C6: the wrapper retries exactly the statuses 429/500/502/503/504 — any
other first response is returned unchanged after one call and no sleep; every
run returns the response of some call `k ≤ max_retries` (the policy never
raises: it always hands back a response); a retryable first response with a
positive budget leads to a second call; and a run of server errors exhausts
the budget and returns the last response as-is. -/
theorem C6_retry_status_policy :
    (∀ (f : Nat → RetryResponse) (mr : Nat) (iD mD : ℚ),
      (f 0).status ∉ retryableStatuses →
      retryWithBackoff f mr iD mD = (f 0, [], 1)) ∧
    (∀ (f : Nat → RetryResponse) (mr : Nat) (iD mD : ℚ),
      ∃ k, k ≤ mr ∧ (retryWithBackoff f mr iD mD).1 = f k) ∧
    (∀ (f : Nat → RetryResponse) (mr : Nat) (iD mD : ℚ),
      (f 0).status ∈ retryableStatuses → 1 ≤ mr →
      2 ≤ (retryWithBackoff f mr iD mD).2.2) ∧
    (∀ (f : Nat → RetryResponse) (mr : Nat) (iD mD : ℚ),
      (∀ n, n ≤ mr → (f n).status ∈ [500, 502, 503, 504]) →
      (retryWithBackoff f mr iD mD).1 = f mr ∧
      (retryWithBackoff f mr iD mD).2.2 = mr + 1) := by
  refine ⟨?_, ?_, ?_, ?_⟩
  · intro f mr iD mD h
    simpa [retryWithBackoff] using retryAux_pass f iD mD 0 mr h
  · intro f mr iD mD
    obtain ⟨k, hk1, hk2, hk3, -⟩ := retryAux_result f iD mD mr 0
    exact ⟨k, by omega, hk3⟩
  · intro f mr iD mD h hmr
    obtain ⟨m, rfl⟩ : ∃ m, mr = m + 1 := ⟨mr - 1, by omega⟩
    obtain ⟨k, hk1, hk2, hk3, hk4⟩ := retryAux_result f iD mD m 1
    by_cases h2 : (f 0).status = 429 ∧ (f 0).retryAfter.isSome
    · rw [show retryWithBackoff f (m + 1) iD mD = retryAux f iD mD 0 (m + 1) from rfl,
        retryAux_rl_succ f iD mD 0 m h2.1 h2.2]
      simpa [hk4] using by omega
    · rw [show retryWithBackoff f (m + 1) iD mD = retryAux f iD mD 0 (m + 1) from rfl,
        retryAux_exp_succ f iD mD 0 m h h2]
      simpa [hk4] using by omega
  · intro f mr iD mD hall
    have h := retryAux_allServerErr f iD mD mr 0 (fun n h1 h2 => hall n (by omega))
    simpa [retryWithBackoff] using h

/-- Witness for C6: a 404 passes through immediately; the all-500 run with
`max_retries = 2` makes three calls and returns the last 500; the first 500
with budget 2 triggers a second call. -/
theorem C6_retry_status_policy_witness :
    retryWithBackoff (fun _ => ⟨404, none⟩) 5 1 60 = (⟨404, none⟩, [], 1) ∧
    (∃ k, k ≤ 5 ∧ (retryWithBackoff (fun _ => ⟨404, none⟩) 5 1 60).1 =
      (fun _ => (⟨404, none⟩ : RetryResponse)) k) ∧
    2 ≤ (retryWithBackoff (fun _ => ⟨500, none⟩) 2 1 60).2.2 ∧
    (retryWithBackoff (fun _ => ⟨500, none⟩) 2 1 60).1 = ⟨500, none⟩ ∧
    (retryWithBackoff (fun _ => ⟨500, none⟩) 2 1 60).2.2 = 2 + 1 := by
  have h1 := C6_retry_status_policy.1 (fun _ => ⟨404, none⟩) 5 1 60 (by decide)
  have h2 := C6_retry_status_policy.2.1 (fun _ => ⟨404, none⟩) 5 1 60
  have h3 := C6_retry_status_policy.2.2.1 (fun _ => ⟨500, none⟩) 2 1 60 (by decide) (by decide)
  have h4 := C6_retry_status_policy.2.2.2 (fun _ => ⟨500, none⟩) 2 1 60
    (fun n _ => by simp)
  exact ⟨h1, h2, h3, h4.1, h4.2⟩

/-! ## C2: 429 Retry-After handling (corrected: it consumes the budget) -/

/-- The response sequence refuting C2: six 429-with-`Retry-After` responses
followed by a success. -/
def c2fW : Nat → RetryResponse := fun n => if n < 6 then ⟨429, some 1⟩ else ⟨200, none⟩

/-- Counterexample to C2: under the defaults (`max_retries = 5`), the six
429-with-`Retry-After` responses consume the entire `max_retries + 1` loop
budget — the wrapper sleeps `min(1, 60)` six times, makes exactly 6 calls and
returns the sixth 429 response, never reaching the success available at call
7.  Under the claim (429 waits not counting against the budget) the run would
still have its whole retry budget and return the 200. -/
theorem C2_rate_limit_budget_counterexample :
    c2fW 6 = ⟨200, none⟩ ∧
    retryWithBackoff c2fW 5 1 60 =
      (⟨429, some 1⟩,
       [⟨0, true, 1⟩, ⟨1, true, 1⟩, ⟨2, true, 1⟩, ⟨3, true, 1⟩, ⟨4, true, 1⟩, ⟨5, true, 1⟩],
       6) := by
  constructor
  · rfl
  · norm_num [retryWithBackoff, retryAux, retryableStatuses, pymin, c2fW]

/-- C2 (amended): a 429 response with a `Retry-After` header does cause a
sleep of `min(retry_after, max_delay)` followed by a retry, but the retry
consumes an iteration of the shared `max_retries + 1` budget: a run of
only 429-with-`Retry-After` responses makes exactly `max_retries + 1` calls
and returns the last 429 response. -/
theorem C2_rate_limit_budget_amended :
    (∀ (f : Nat → RetryResponse) (mr : Nat) (iD mD ra : ℚ), 1 ≤ mr →
      (f 0).status = 429 → (f 0).retryAfter = some ra →
      (retryWithBackoff f mr iD mD).2.1.head? = some ⟨0, true, pymin ra mD⟩ ∧
      2 ≤ (retryWithBackoff f mr iD mD).2.2) ∧
    (∀ (f : Nat → RetryResponse) (mr : Nat) (iD mD : ℚ),
      (∀ n, (f n).status = 429 ∧ (f n).retryAfter.isSome) →
      (retryWithBackoff f mr iD mD).1 = f mr ∧
      (retryWithBackoff f mr iD mD).2.2 = mr + 1) := by
  constructor
  · intro f mr iD mD ra hmr h429 hra
    obtain ⟨m, rfl⟩ : ∃ m, mr = m + 1 := ⟨mr - 1, by omega⟩
    obtain ⟨k, hk1, hk2, hk3, hk4⟩ := retryAux_result f iD mD m 1
    rw [show retryWithBackoff f (m + 1) iD mD = retryAux f iD mD 0 (m + 1) from rfl,
      retryAux_rl_succ f iD mD 0 m h429 (by simp [hra])]
    constructor
    · simp [hra]
    · simpa [hk4] using by omega
  · intro f mr iD mD hall
    have h := retryAux_allRL f iD mD hall mr 0
    simpa [retryWithBackoff] using h

/-- Witness for the amended C2: the constant 429-with-`Retry-After 7` run with
`max_retries = 2` sleeps `min(7, 60)` first, is called a second time, and in
total makes exactly 3 calls before returning the last 429. -/
theorem C2_rate_limit_budget_amended_witness :
    (retryWithBackoff (fun _ => ⟨429, some 7⟩) 2 1 60).2.1.head? =
      some ⟨0, true, pymin 7 60⟩ ∧
    2 ≤ (retryWithBackoff (fun _ => ⟨429, some 7⟩) 2 1 60).2.2 ∧
    (retryWithBackoff (fun _ => ⟨429, some 7⟩) 2 1 60).1 = ⟨429, some 7⟩ ∧
    (retryWithBackoff (fun _ => ⟨429, some 7⟩) 2 1 60).2.2 = 2 + 1 := by
  have h1 := C2_rate_limit_budget_amended.1 (fun _ => ⟨429, some 7⟩) 2 1 60 7
    (by decide) rfl rfl
  have h2 := C2_rate_limit_budget_amended.2 (fun _ => ⟨429, some 7⟩) 2 1 60
    (fun n => ⟨rfl, rfl⟩)
  exact ⟨h1.1, h1.2, h2.1, h2.2⟩


/-! ## C3: paginator auth errors -/

theorem pyGetD_page_items (items : List Val) (nx d : Val) :
    pyGetD [("items", .list items), ("next", nx)] "items" d = .list items := rfl

theorem pyGetD_page_next (items : List Val) (nx d : Val) :
    pyGetD [("items", .list items), ("next", nx)] "next" d = nx := rfl

theorem paginator_401 (get : String → HttpResponse) (fuel : Nat) (u : String) (acc : List Val)
    (hu : u ≠ "") (h : (get u).status = 401) :
    getPaginatedLoop get (fuel + 1) (.str u) acc = .error .unauthorized := by
  have hu' : u.isEmpty = false := by
    rw [Bool.eq_false_iff]
    simpa [String.isEmpty_iff] using hu
  rw [getPaginatedLoop]
  simp [Val.truthy, hu', h]

theorem paginator_403 (get : String → HttpResponse) (fuel : Nat) (u : String) (acc : List Val)
    (hu : u ≠ "") (h : (get u).status = 403) :
    getPaginatedLoop get (fuel + 1) (.str u) acc = .error .forbidden := by
  have hu' : u.isEmpty = false := by
    rw [Bool.eq_false_iff]
    simpa [String.isEmpty_iff] using hu
  rw [getPaginatedLoop]
  simp [Val.truthy, hu', h]

theorem paginator_401_page2 (get : String → HttpResponse) (fuel : Nat) (u1 u2 : String)
    (items1 : List Val) (hu1 : u1 ≠ "") (hu2 : u2 ≠ "")
    (h1 : get u1 = ⟨200, [("items", .list items1), ("next", .str u2)]⟩)
    (h2 : (get u2).status = 401) :
    getPaginatedData get (fuel + 2) u1 = .error .unauthorized := by
  have hu1' : u1.isEmpty = false := by
    rw [Bool.eq_false_iff]
    simpa [String.isEmpty_iff] using hu1
  rw [getPaginatedData, getPaginatedLoop]
  simp only [Val.truthy, hu1', h1, pyGetD_page_items, pyGetD_page_next, Bool.not_false,
    if_true, List.nil_append]
  norm_num
  exact paginator_401 get fuel u2 items1 hu2 h2

/-- C3: mid-pagination, a 401 response makes the paginator raise Unauthorized
and a 403 makes it raise Forbidden, both immediately and regardless of the
items accumulated so far (the error result carries no items); in particular a
401 on page 2 of a 2-page sequence raises Unauthorized and returns none of
page 1's items. -/
theorem C3_paginator_auth_errors :
    (∀ (get : String → HttpResponse) (fuel : Nat) (u : String) (acc : List Val),
      u ≠ "" → (get u).status = 401 →
      getPaginatedLoop get (fuel + 1) (.str u) acc = .error .unauthorized) ∧
    (∀ (get : String → HttpResponse) (fuel : Nat) (u : String) (acc : List Val),
      u ≠ "" → (get u).status = 403 →
      getPaginatedLoop get (fuel + 1) (.str u) acc = .error .forbidden) ∧
    (∀ (get : String → HttpResponse) (fuel : Nat) (u1 u2 : String) (items1 : List Val),
      u1 ≠ "" → u2 ≠ "" →
      get u1 = ⟨200, [("items", .list items1), ("next", .str u2)]⟩ →
      (get u2).status = 401 →
      getPaginatedData get (fuel + 2) u1 = .error .unauthorized) :=
  ⟨paginator_401, paginator_403, paginator_401_page2⟩

/-- Witness for C3: concrete 401/403 responses, and a 2-page run whose second
page answers 401. -/
theorem C3_paginator_auth_errors_witness :
    getPaginatedLoop (fun _ => ⟨401, []⟩) 1 (.str "u") [.num 9] = .error .unauthorized ∧
    getPaginatedLoop (fun _ => ⟨403, []⟩) 1 (.str "u") [] = .error .forbidden ∧
    getPaginatedData
      (fun u => if u = "p1" then ⟨200, [("items", .list [.num 1]), ("next", .str "p2")]⟩
                else ⟨401, []⟩) 2 "p1" = .error .unauthorized :=
  ⟨C3_paginator_auth_errors.1 (fun _ => ⟨401, []⟩) 0 "u" [.num 9] (by decide) rfl,
   C3_paginator_auth_errors.2.1 (fun _ => ⟨403, []⟩) 0 "u" [] (by decide) rfl,
   C3_paginator_auth_errors.2.2
     (fun u => if u = "p1" then ⟨200, [("items", .list [.num 1]), ("next", .str "p2")]⟩
               else ⟨401, []⟩) 0 "p1" "p2" [.num 1] (by decide) (by decide) rfl rfl⟩

/-! ## C4: paginator concatenation and termination by null cursor -/

/-- The URL value the paginator sees at the head of a page chain: `null` when
no pages remain, the first page's URL otherwise. -/
def chainStartUrl : List (String × List Val) → Val
  | [] => .null
  | (u, _) :: _ => .str u

/-- A well-formed finite 2xx page chain: every page is served at its URL with
status 200, carries its item list, and links to the next page's URL (`null`
at the end). -/
def pageChain (get : String → HttpResponse) : List (String × List Val) → Prop
  | [] => True
  | (u, items) :: rest =>
    u ≠ "" ∧
    get u = ⟨200, [("items", .list items), ("next", chainStartUrl rest)]⟩ ∧
    pageChain get rest

theorem pageChain_loop (get : String → HttpResponse) :
    ∀ (ps : List (String × List Val)) (fuel : Nat) (acc : List Val),
    pageChain get ps → ps.length ≤ fuel →
    getPaginatedLoop get fuel (chainStartUrl ps) acc =
      .ok (acc ++ (ps.map Prod.snd).flatten) := by
  intro ps
  induction ps with
  | nil =>
    intro fuel acc _ _
    simp only [chainStartUrl]
    rw [getPaginatedLoop]
    simp [Val.truthy]
    exact fun u h => Val.noConfusion h
  | cons p rest ih =>
    obtain ⟨u, items⟩ := p
    intro fuel acc hchain hlen
    obtain ⟨hu, hget, hrest⟩ := hchain
    obtain ⟨fu, rfl⟩ : ∃ fu, fuel = fu + 1 := ⟨fuel - 1, by simp at hlen; omega⟩
    have hu' : u.isEmpty = false := by
      rw [Bool.eq_false_iff]
      simpa [String.isEmpty_iff] using hu
    simp only [chainStartUrl]
    rw [getPaginatedLoop]
    simp only [Val.truthy, hu', hget, pyGetD_page_items, pyGetD_page_next, Bool.not_false,
      if_true]
    norm_num
    rw [ih fu (acc ++ items) hrest (by simp at hlen ⊢; omega)]
    simp

/-- C4: over any finite chain of 2xx pages linked by `next` URLs, the
paginator returns the concatenation of all pages' items in page order,
terminating exactly at the null `next`; and a page with zero items but a
non-null `next` does not terminate pagination — the loop proceeds to the next
URL with its accumulator unchanged. -/
theorem C4_paginator_concatenation :
    (∀ (get : String → HttpResponse) (fuel : Nat) (u : String) (items : List Val)
       (rest : List (String × List Val)),
      pageChain get ((u, items) :: rest) → rest.length + 1 ≤ fuel →
      getPaginatedData get fuel u = .ok ((((u, items) :: rest).map Prod.snd).flatten)) ∧
    (∀ (get : String → HttpResponse) (fuel : Nat) (u u' : String) (acc : List Val),
      u ≠ "" →
      get u = ⟨200, [("items", .list []), ("next", .str u')]⟩ →
      getPaginatedLoop get (fuel + 1) (.str u) acc =
        getPaginatedLoop get fuel (.str u') acc) := by
  constructor
  · intro get fuel u items rest hchain hlen
    have := pageChain_loop get ((u, items) :: rest) fuel [] hchain (by simpa using hlen)
    simpa [getPaginatedData, chainStartUrl] using this
  · intro get fuel u u' acc hu h
    have hu' : u.isEmpty = false := by
      rw [Bool.eq_false_iff]
      simpa [String.isEmpty_iff] using hu
    rw [getPaginatedLoop]
    simp only [Val.truthy, hu', h, pyGetD_page_items, pyGetD_page_next, Bool.not_false,
      if_true]
    norm_num

/-- Witness for C4: a 2-page chain returns both pages' items in order, and an
empty page with a non-null `next` hands the unchanged accumulator to the next
URL. -/
theorem C4_paginator_concatenation_witness :
    getPaginatedData
      (fun u => if u = "p1" then ⟨200, [("items", .list [.num 1, .num 2]), ("next", .str "p2")]⟩
                else ⟨200, [("items", .list [.num 3]), ("next", .null)]⟩) 2 "p1" =
      .ok [.num 1, .num 2, .num 3] ∧
    getPaginatedLoop (fun _ => ⟨200, [("items", .list []), ("next", .str "e2")]⟩)
        (3 + 1) (.str "e1") [.num 7] =
      getPaginatedLoop (fun _ => ⟨200, [("items", .list []), ("next", .str "e2")]⟩)
        3 (.str "e2") [.num 7] :=
  ⟨C4_paginator_concatenation.1
      (fun u => if u = "p1" then ⟨200, [("items", .list [.num 1, .num 2]), ("next", .str "p2")]⟩
                else ⟨200, [("items", .list [.num 3]), ("next", .null)]⟩)
      2 "p1" [.num 1, .num 2] [("p2", [.num 3])]
      ⟨by decide, rfl, by decide, rfl, trivial⟩ (by decide),
   C4_paginator_concatenation.2
      (fun _ => ⟨200, [("items", .list []), ("next", .str "e2")]⟩)
      3 "e1" "e2" [.num 7] (by decide) rfl⟩

/-! ## C7: followed-artists cursor pagination -/

theorem pyGetD_fa_body (a d : Val) : pyGetD [("artists", a)] "artists" d = a := rfl

theorem pyGet_fa_items (i c d : Val) :
    Val.pyGet (.dict [("items", i), ("cursors", c)]) "items" d = .ok i := rfl

theorem pyGet_fa_cursors (i c d : Val) :
    Val.pyGet (.dict [("items", i), ("cursors", c)]) "cursors" d = .ok c := rfl

theorem pyGet_after_some (x d : Val) :
    Val.pyGet (.dict [("after", x)]) "after" d = .ok x := rfl

theorem pyGet_after_empty (d : Val) : Val.pyGet (.dict []) "after" d = .ok d := rfl

theorem faLoop_none (apiUrl : String) (get : String → HttpResponse) (fuel : Nat)
    (results : List Val) (reqs : List String) :
    getFollowedArtistsLoop apiUrl get fuel none results reqs = .ok (results, reqs) := by
  cases fuel <;> rfl

theorem followedArtists_two_pages (apiUrl : String) (get : String → HttpResponse)
    (fuel : Nat) (items1 items2 : List Val)
    (h1 : get (apiUrl ++ "/v1/me/following?type=artist&limit=50") =
      ⟨200, [("artists", .dict [("items", .list items1),
                                ("cursors", .dict [("after", .str "X")])])]⟩)
    (h2 : get (apiUrl ++ "/v1/me/following?type=artist&limit=50&after=X") =
      ⟨200, [("artists", .dict [("items", .list items2), ("cursors", .dict [])])]⟩) :
    getFollowedArtistsLoop apiUrl get (fuel + 2)
        (some (apiUrl ++ "/v1/me/following?type=artist&limit=50")) [] [] =
      .ok (items1 ++ items2,
        [apiUrl ++ "/v1/me/following?type=artist&limit=50",
         apiUrl ++ "/v1/me/following?type=artist&limit=50&after=X"]) := by
  have hurl : apiUrl ++ "/v1/me/following?type=artist&limit=50&after=" ++ (Val.str "X").pyStr
      = apiUrl ++ "/v1/me/following?type=artist&limit=50&after=X" := by
    rw [String.append_assoc]
    rfl
  rw [getFollowedArtistsLoop]
  simp only [h1, pyGetD_fa_body, pyGet_fa_items, pyGet_fa_cursors, pyGet_after_some,
    asList, Val.truthy, Except.instMonad, Except.bind, Except.pure]
  norm_num
  rw [hurl]
  rw [show (if "X".isEmpty = false
        then some (apiUrl ++ "/v1/me/following?type=artist&limit=50&after=X") else none)
      = some (apiUrl ++ "/v1/me/following?type=artist&limit=50&after=X") from rfl]
  rw [getFollowedArtistsLoop]
  simp only [h2, pyGetD_fa_body, pyGet_fa_items, pyGet_fa_cursors, pyGet_after_empty,
    asList, Val.truthy, Except.instMonad, Except.bind, Except.pure]
  norm_num
  simp [faLoop_none]

/-- C7: the followed-artists fetcher unwraps `items` and `cursors.after` from
under the response's `artists` key; given a first response carrying
`artists.cursors.after = "X"` and a second carrying no `after`, it issues
exactly two requests — the second at the fixed base URL with `after=X`
appended — accumulates both responses' items in order, and returns their
in-order serialization. -/
theorem C7_followed_artists_cursor :
    ∀ (apiUrl : String) (get : String → HttpResponse) (fuel : Nat)
      (items1 items2 : List Val),
      get (apiUrl ++ "/v1/me/following?type=artist&limit=50") =
        ⟨200, [("artists", .dict [("items", .list items1),
                                  ("cursors", .dict [("after", .str "X")])])]⟩ →
      get (apiUrl ++ "/v1/me/following?type=artist&limit=50&after=X") =
        ⟨200, [("artists", .dict [("items", .list items2), ("cursors", .dict [])])]⟩ →
      getFollowedArtistsLoop apiUrl get (fuel + 2)
          (some (apiUrl ++ "/v1/me/following?type=artist&limit=50")) [] [] =
        .ok (items1 ++ items2,
          [apiUrl ++ "/v1/me/following?type=artist&limit=50",
           apiUrl ++ "/v1/me/following?type=artist&limit=50&after=X"]) ∧
      (∀ out, mapSerializeArtist (items1 ++ items2) = .ok out →
        getFollowedArtists apiUrl get (fuel + 2) =
          .ok (out,
            [apiUrl ++ "/v1/me/following?type=artist&limit=50",
             apiUrl ++ "/v1/me/following?type=artist&limit=50&after=X"])) := by
  intro apiUrl get fuel items1 items2 h1 h2
  have hl := followedArtists_two_pages apiUrl get fuel items1 items2 h1 h2
  refine ⟨hl, ?_⟩
  intro out hout
  simp [getFollowedArtists, hl, hout, Except.instMonad, Except.bind, Except.pure]

/-- The C7 witness network: the base URL serves one artist and cursor `"X"`;
every other URL serves the second artist with no cursor. -/
def faGetW : String → HttpResponse := fun u =>
  if u = "https://a/v1/me/following?type=artist&limit=50" then
    ⟨200, [("artists", .dict [("items", .list [.dict [("name", .str "R")]]),
                              ("cursors", .dict [("after", .str "X")])])]⟩
  else
    ⟨200, [("artists", .dict [("items", .list [.dict [("name", .str "S")]]),
                              ("cursors", .dict [])])]⟩

/-- Witness for C7: two requests issued, both pages' artists merged in order
and serialized. -/
theorem C7_followed_artists_cursor_witness :
    getFollowedArtistsLoop "https://a" faGetW 2
        (some ("https://a" ++ "/v1/me/following?type=artist&limit=50")) [] [] =
      .ok ([.dict [("name", .str "R")], .dict [("name", .str "S")]],
        ["https://a" ++ "/v1/me/following?type=artist&limit=50",
         "https://a" ++ "/v1/me/following?type=artist&limit=50&after=X"]) ∧
    getFollowedArtists "https://a" faGetW 2 =
      .ok ([.dict [("name", .str "R"), ("genres", .list []), ("image_url", .null),
                   ("followers", .num 0)],
            .dict [("name", .str "S"), ("genres", .list []), ("image_url", .null),
                   ("followers", .num 0)]],
        ["https://a" ++ "/v1/me/following?type=artist&limit=50",
         "https://a" ++ "/v1/me/following?type=artist&limit=50&after=X"]) :=
  have h := C7_followed_artists_cursor "https://a" faGetW 0
    [.dict [("name", .str "R")]] [.dict [("name", .str "S")]] rfl rfl
  ⟨h.1, h.2 _ rfl⟩


end SpotifyDump
